import Mathlib

/-!
Verification development for the signal-queue-and-deferred-dispatch core of
`src/los_signal.c` (module `eli.os.signal`).

The C file keeps process-global state: a pending flag `g_signal_pending`, a
bounded queue `g_signal_queue` of at most `SIGNAL_QUEUE_MAX = 50` entries with
its fill count `g_queue_count` (on Windows a parallel `g_kind_queue` records
the origin kind of every entry), a registry reference `handlersRef` to the Lua
table mapping signal numbers to callback functions, plus the hook installed via
`lua_sethook`.

We embed that state shallowly:
  * the queue array plus its count become a `List SignalRecord`
    (`g_queue_count` is the list length; array cells at indices at or above the
    count are never read by the C code before being overwritten);
  * a record carries the signal number and the origin kind that
    `enqueue_signal(signum, kind)` receives — the general (Windows) variant
    stores and later dispatches the kind; on POSIX every call site passes
    kind = 0 (`standard_signal_handler`) and the drain pushes the constant
    boolean 0, which coincides with dispatching the stored kind;
  * Lua callback values are opaque handles (`Cb := Nat`); the behaviour of a
    callback under `lua_pcall` is an explicit parameter
    `runCb : Cb → Int → Bool → Except String Unit`;
  * the Lua registry holding the handlers table, and the fresh tables
    allocated by `lua_newtable`, become a heap `Nat → Tbl` with an allocation
    counter, so that table identity (live table vs. snapshot copy) is
    expressible;
  * the OS `sigaction`/`signal` calls are abstracted by a success predicate
    `osOk : Int → Bool`, and the resulting process disposition is tracked.
-/

/-- Signal-number type: C `int`. -/
abbrev Signum := Int

/-- Opaque handle to a Lua callback function stored in the handlers table. -/
abbrev Cb := Nat

/-- A queued signal record: the signal number passed to `enqueue_signal`
together with the origin kind (`false` = native/POSIX, `true` = console
event), as stored in `g_signal_queue` (and `g_kind_queue` on Windows). -/
structure SignalRecord where
  signal_number : Signum
  origin_kind : Bool
deriving DecidableEq, Repr

/-- `#define SIGNAL_QUEUE_MAX 50` — capacity of the bounded signal queue. -/
def SIGNAL_QUEUE_MAX : Nat := 50

/-- The interrupt-side global state of `los_signal.c`: the pending flag
`g_signal_pending` (a `sig_atomic_t` used as a boolean) and the queue
`g_signal_queue` with its count (represented as a list, count = length). -/
structure SigState where
  g_signal_pending : Bool
  g_signal_queue : List SignalRecord
deriving DecidableEq, Repr

/-- `g_queue_count` of the C file: the fill count of the queue. -/
def g_queue_count (s : SigState) : Nat :=
  s.g_signal_queue.length

/-- The state at load time: both globals are zero-initialised
(`static volatile sig_atomic_t g_signal_pending = 0;`, empty queue). -/
def initialSigState : SigState :=
  { g_signal_pending := false, g_signal_queue := [] }

/-- `enqueue_signal(int signum, int kind)` (src/los_signal.c:55-81): if
`g_queue_count < SIGNAL_QUEUE_MAX`, append the record at index
`g_queue_count`, increment the count and set `g_signal_pending = 1`;
otherwise do nothing (the record is silently dropped). The surrounding
critical section (Windows) is the atomicity granularity of this step. -/
def enqueue_signal (s : SigState) (signum : Signum) (kind : Bool) : SigState :=
  if g_queue_count s < SIGNAL_QUEUE_MAX then
    { g_signal_pending := true
      g_signal_queue := s.g_signal_queue ++ [⟨signum, kind⟩] }
  else
    s

/-- `standard_signal_handler(int signum)` (src/los_signal.c:112-115): the
POSIX signal handler, which enqueues with origin kind 0 (native). -/
def standard_signal_handler (s : SigState) (signum : Signum) : SigState :=
  enqueue_signal s signum false

/-- Simulate a sequence of interrupts arriving between two drains: each one
runs `enqueue_signal` with its signal number and origin kind. -/
def simulate_interrupts (s : SigState) (recs : List SignalRecord) : SigState :=
  recs.foldl (fun t r => enqueue_signal t r.signal_number r.origin_kind) s

/-- The handlers table: Lua table mapping signal number to callback
function, modelled as an association list (semantics given by `tblGet`). -/
abbrev Tbl := List (Signum × Cb)

/-- `lua_rawgeti(table, sig)`: look up a signal number in the handlers
table; returns `none` where Lua would return nil. -/
def tblGet (t : Tbl) (k : Signum) : Option Cb :=
  match t with
  | [] => none
  | (k', v) :: rest => if k' = k then some v else tblGet rest k

/-- Drop the entry for key `k` from an association list. -/
def tblRemove : Tbl → Signum → Tbl
  | [], _ => []
  | (k', v) :: rest, k =>
    if k' = k then tblRemove rest k else (k', v) :: tblRemove rest k

/-- `lua_rawset(table, k, v)`: set (`some cb`) or remove (`none`, Lua nil)
the entry for key `k`; a set replaces any existing entry (last registration
wins). -/
def tblSet (t : Tbl) (k : Signum) (v : Option Cb) : Tbl :=
  match v with
  | none => tblRemove t k
  | some cb => tblRemove t k ++ [(k, cb)]

/-- A dispatched callback invocation: the callback handle and the two
arguments pushed for it (`lua_pushinteger(sig)`, `lua_pushboolean(kind)`). -/
abbrev Dispatch := Cb × Signum × Bool

/-- Outcome of one `check_signal_hook` invocation: the global state after
it, the callback invocations it performed in order, and the lines written
to stderr for handler errors. -/
structure DrainResult where
  state : SigState
  dispatches : List Dispatch
  logs : List String
deriving DecidableEq, Repr

/-- The dispatch loop of `check_signal_hook` (src/los_signal.c:173-196):
for each snapshotted record in FIFO order, look the signal number up in the
handlers table; if nil, skip; otherwise invoke the callback under
`lua_pcall` with arguments `(sig, kind)`; on error, print
`[os.signal] Error in handler: <err>` to stderr and continue. -/
def dispatch_loop (tbl : Tbl) (runCb : Cb → Signum → Bool → Except String Unit) :
    List SignalRecord → List Dispatch × List String
  | [] => ([], [])
  | r :: rest =>
    match tblGet tbl r.signal_number with
    | none => dispatch_loop tbl runCb rest
    | some cb =>
      let tail := dispatch_loop tbl runCb rest
      match runCb cb r.signal_number r.origin_kind with
      | Except.ok _ => ((cb, r.signal_number, r.origin_kind) :: tail.1, tail.2)
      | Except.error e =>
        ((cb, r.signal_number, r.origin_kind) :: tail.1,
         ("[os.signal] Error in handler: " ++ e ++ "\n") :: tail.2)

/-- `check_signal_hook` (src/los_signal.c:125-199): fast-exit when
`g_signal_pending` is zero; otherwise snapshot the queue and, if the count
is positive, clear `g_queue_count` and `g_signal_pending` (this
snapshot-and-clear happens with all signals blocked via `sigprocmask`, or
inside the critical section on Windows, hence as one atomic step), then
dispatch the snapshot to the registered handlers. -/
def check_signal_hook (tbl : Tbl) (runCb : Cb → Signum → Bool → Except String Unit)
    (s : SigState) : DrainResult :=
  if s.g_signal_pending = false then
    { state := s, dispatches := [], logs := [] }
  else
    let count := g_queue_count s
    let snapshot := s.g_signal_queue
    let cleared : SigState :=
      if 0 < count then { g_signal_pending := false, g_signal_queue := [] } else s
    if 0 < count then
      let d := dispatch_loop tbl runCb snapshot
      { state := cleared, dispatches := d.1, logs := d.2 }
    else
      { state := cleared, dispatches := [], logs := [] }

/-- A Lua argument value as far as `eli_os_signal_handle` / `..._reset`
inspect it: nil, an integer, a function, the distinguished light userdata
`&ELI_SIGNAL_IGNORE`, or anything else. -/
inductive LuaValue where
  | nil
  | integer (n : Signum)
  | function (cb : Cb)
  | ignore_sentinel
  | other
deriving DecidableEq, Repr

/-- The `lua_type(L, 2) == LUA_TLIGHTUSERDATA && lua_touserdata(L, 2) ==
&ELI_SIGNAL_IGNORE` test at src/los_signal.c:224-228. -/
def isIgnoreSentinel : LuaValue → Bool
  | LuaValue.ignore_sentinel => true
  | _ => false

/-- The `luaL_checktype(L, 2, LUA_TFUNCTION)` success condition. -/
def isFunctionVal : LuaValue → Bool
  | LuaValue.function _ => true
  | _ => false

/-- OS disposition of a signal as set through `sigaction`/`signal`:
default (`SIG_DFL`), ignored (`SIG_IGN`), or pointing at
`standard_signal_handler`. -/
inductive SigDisp where
  | dfl
  | ignored
  | handled
deriving DecidableEq, Repr

/-- The interpreter-thread state the registration functions touch: a heap of
Lua tables addressed by reference (`heap`, with `nextRef` the next reference
`lua_newtable`/`luaL_ref` would hand out), the registry reference
`handlersRef` of the handlers table, whether a `LUA_MASKCOUNT` hook is
installed (`lua_gethookmask(L) & LUA_MASKCOUNT`), and the per-signal OS
disposition. -/
structure LuaState where
  heap : Nat → Tbl
  nextRef : Nat
  handlersRef : Nat
  hookArmed : Bool
  disp : Signum → SigDisp

/-- State right after `luaopen_eli_os_signal`: one empty handlers table at
reference 0, no count hook installed, every signal at its default
disposition. -/
def initialLuaState : LuaState :=
  { heap := fun _ => []
    nextRef := 1
    handlersRef := 0
    hookArmed := false
    disp := fun _ => SigDisp.dfl }

/-- The contents of the table at reference `t`. -/
def tableContents (st : LuaState) (t : Nat) : Tbl :=
  st.heap t

/-- The current contents of the handlers table
(`lua_rawgeti(L, LUA_REGISTRYINDEX, handlersRef)`). -/
def getHandlersTbl (st : LuaState) : Tbl :=
  st.heap st.handlersRef

/-- Overwrite the handlers table's contents (the effect of a
`lua_rawset` performed on it). -/
def setHandlersTbl (st : LuaState) (t : Tbl) : LuaState :=
  { st with heap := fun i => if i = st.handlersRef then t else st.heap i }

/-- A `lua_rawset` performed by script code on the table at reference `t`
(used to model mutation of the mapping returned by `handlers()`). -/
def rawsetTable (st : LuaState) (t : Nat) (k : Signum) (v : Option Cb) : LuaState :=
  { st with heap := fun i => if i = t then tblSet (st.heap i) k v else st.heap i }

/-- How a registration call returns to Lua: `raised` for a Lua error thrown
by `luaL_checkinteger`/`luaL_checktype`, `ok` for a plain `return 0`, and
`failure` for the recoverable `push_error(L, msg)` result (nil + message). -/
inductive CallResult where
  | raised (msg : String)
  | ok
  | failure (msg : String)
deriving DecidableEq, Repr

/-- `eli_os_signal_handle` (src/los_signal.c:220-339), POSIX variant,
parametrised by `osOk signum` = whether the `sigaction` call for `signum`
succeeds. Flow: detect the IGNORE sentinel; if ignoring with a nil first
argument, return immediately; `luaL_checkinteger(L, 1)`; if not ignoring,
`luaL_checktype(L, 2, LUA_TFUNCTION)`. Ignore path: remove the table entry
for `signum`, then `sigaction(signum, SIG_IGN)` — `push_error` on failure —
and return without touching the hook. Handle path:
`sigaction(signum, standard_signal_handler)` — `push_error` on failure,
table untouched — then store the callback and arm the count hook if no
count hook is active. -/
def eli_os_signal_handle (osOk : Signum → Bool) (st : LuaState)
    (arg1 arg2 : LuaValue) : LuaState × CallResult :=
  let is_ignore := isIgnoreSentinel arg2
  if is_ignore ∧ arg1 = LuaValue.nil then
    (st, CallResult.ok)
  else
    match arg1 with
    | LuaValue.integer signum =>
      if ¬is_ignore ∧ ¬isFunctionVal arg2 then
        (st, CallResult.raised "bad argument #2 (function expected)")
      else if is_ignore then
        let st1 := setHandlersTbl st (tblSet (getHandlersTbl st) signum none)
        if osOk signum then
          ({ st1 with disp := fun n => if n = signum then SigDisp.ignored else st1.disp n },
           CallResult.ok)
        else
          (st1, CallResult.failure "failed to set signal to ignore")
      else
        match arg2 with
        | LuaValue.function cb =>
          if osOk signum then
            let st1 :=
              { st with disp := fun n => if n = signum then SigDisp.handled else st.disp n }
            let st2 := setHandlersTbl st1 (tblSet (getHandlersTbl st1) signum (some cb))
            if st2.hookArmed then (st2, CallResult.ok)
            else ({ st2 with hookArmed := true }, CallResult.ok)
          else
            (st, CallResult.failure "failed to set signal handler")
        | _ => (st, CallResult.raised "bad argument #2 (function expected)")
    | _ => (st, CallResult.raised "bad argument #1 (number expected)")

/-- `eli_os_signal_reset` (src/los_signal.c:341-387), POSIX variant:
`luaL_checkinteger(L, 1)`; `signal(signum, SIG_DFL)` — `push_error` on
failure, everything untouched — then remove the stored callback. -/
def eli_os_signal_reset (osOk : Signum → Bool) (st : LuaState)
    (arg1 : LuaValue) : LuaState × CallResult :=
  match arg1 with
  | LuaValue.integer signum =>
    if osOk signum then
      let st1 :=
        { st with disp := fun n => if n = signum then SigDisp.dfl else st.disp n }
      (setHandlersTbl st1 (tblSet (getHandlersTbl st1) signum none), CallResult.ok)
    else
      (st, CallResult.failure "failed to reset signal handler")
  | _ => (st, CallResult.raised "bad argument #1 (number expected)")

/-- `eli_os_signal_handlers` (src/los_signal.c:389-402): allocate a fresh
table (`lua_newtable`), copy every key/value pair of the handlers table into
it with `lua_next`/`lua_rawset`, and return the fresh table. Returns the
state with the new table allocated, together with its reference. -/
def eli_os_signal_handlers (st : LuaState) : LuaState × Nat :=
  ({ st with
      heap := fun i => if i = st.nextRef then st.heap st.handlersRef else st.heap i
      nextRef := st.nextRef + 1 },
   st.nextRef)

/-- The callback invocation a single queued record gives rise to during a
drain: `none` when no handler is registered for its signal number (the loop
skips it), otherwise the registered callback with arguments
`(signal_number, origin_kind)`. -/
def attempted (tbl : Tbl) (r : SignalRecord) : Option Dispatch :=
  (tblGet tbl r.signal_number).map (fun cb => (cb, r.signal_number, r.origin_kind))

/-- The stderr line a single queued record gives rise to during a drain:
produced exactly when its registered callback's `lua_pcall` fails. -/
def errorLog (tbl : Tbl) (runCb : Cb → Signum → Bool → Except String Unit)
    (r : SignalRecord) : Option String :=
  match tblGet tbl r.signal_number with
  | none => none
  | some cb =>
    match runCb cb r.signal_number r.origin_kind with
    | Except.ok _ => none
    | Except.error e => some ("[os.signal] Error in handler: " ++ e ++ "\n")

theorem dispatch_loop_eq (tbl : Tbl) (runCb : Cb → Signum → Bool → Except String Unit) :
    ∀ recs : List SignalRecord,
      dispatch_loop tbl runCb recs =
        (recs.filterMap (attempted tbl), recs.filterMap (errorLog tbl runCb)) := by
  intro recs
  induction recs with
  | nil => simp [dispatch_loop]
  | cons r rest ih =>
    cases hg : tblGet tbl r.signal_number with
    | none =>
      simp [dispatch_loop, hg, ih, attempted, errorLog]
    | some cb =>
      cases hr : runCb cb r.signal_number r.origin_kind with
      | ok u => simp [dispatch_loop, hg, hr, ih, attempted, errorLog]
      | error e => simp [dispatch_loop, hg, hr, ih, attempted, errorLog]

theorem simulate_interrupts_eq (recs : List SignalRecord) : ∀ s : SigState,
    simulate_interrupts s recs =
      { g_signal_pending := s.g_signal_pending ||
          (!recs.isEmpty && decide (g_queue_count s < SIGNAL_QUEUE_MAX))
        g_signal_queue :=
          s.g_signal_queue ++ recs.take (SIGNAL_QUEUE_MAX - g_queue_count s) } := by
  induction recs with
  | nil =>
    intro s
    simp [simulate_interrupts]
  | cons r rest ih =>
    intro s
    have hstep : simulate_interrupts s (r :: rest) =
        simulate_interrupts (enqueue_signal s r.signal_number r.origin_kind) rest := rfl
    by_cases h : g_queue_count s < SIGNAL_QUEUE_MAX
    · have henq : enqueue_signal s r.signal_number r.origin_kind =
          { g_signal_pending := true
            g_signal_queue := s.g_signal_queue ++ [⟨r.signal_number, r.origin_kind⟩] } := by
        simp [enqueue_signal, h]
      rw [hstep, henq, ih]
      have hcount : g_queue_count
          { g_signal_pending := true
            g_signal_queue := s.g_signal_queue ++ [⟨r.signal_number, r.origin_kind⟩] } =
          g_queue_count s + 1 := by
        simp [g_queue_count]
      have htake : SIGNAL_QUEUE_MAX - g_queue_count s =
          (SIGNAL_QUEUE_MAX - (g_queue_count s + 1)) + 1 := by omega
      simp only [hcount, SigState.mk.injEq]
      constructor
      · simp [h]
      · rw [htake, List.take_succ_cons, List.append_assoc]
        rfl
    · have henq : enqueue_signal s r.signal_number r.origin_kind = s := by
        simp [enqueue_signal, h]
      rw [hstep, henq, ih]
      have htake : SIGNAL_QUEUE_MAX - g_queue_count s = 0 := by omega
      simp [htake, h]

theorem simulate_interrupts_from_empty (recs : List SignalRecord)
    (hlen : recs.length ≤ SIGNAL_QUEUE_MAX) :
    simulate_interrupts initialSigState recs =
      { g_signal_pending := !recs.isEmpty, g_signal_queue := recs } := by
  rw [simulate_interrupts_eq]
  have h0 : g_queue_count initialSigState = 0 := rfl
  simp [initialSigState, h0, List.take_of_length_le hlen, SIGNAL_QUEUE_MAX]
  have h50 : recs.length ≤ 50 := by simpa [SIGNAL_QUEUE_MAX] using hlen
  exact ⟨fun _ => by simp [g_queue_count], by simpa [g_queue_count] using h50⟩

theorem check_signal_hook_not_pending (tbl : Tbl)
    (runCb : Cb → Signum → Bool → Except String Unit) (s : SigState)
    (hp : s.g_signal_pending = false) :
    check_signal_hook tbl runCb s = { state := s, dispatches := [], logs := [] } := by
  simp [check_signal_hook, hp]

theorem check_signal_hook_drained (tbl : Tbl)
    (runCb : Cb → Signum → Bool → Except String Unit) (s : SigState)
    (hp : s.g_signal_pending = true) (hq : s.g_signal_queue ≠ []) :
    check_signal_hook tbl runCb s =
      { state := { g_signal_pending := false, g_signal_queue := [] }
        dispatches := s.g_signal_queue.filterMap (attempted tbl)
        logs := s.g_signal_queue.filterMap (errorLog tbl runCb) } := by
  have hc : 0 < g_queue_count s := by
    simpa [g_queue_count, List.length_pos] using hq
  simp [check_signal_hook, hp, hc, dispatch_loop_eq]

theorem filterMap_attempted_of_registered (tbl : Tbl) :
    ∀ recs : List SignalRecord,
      (∀ r ∈ recs, (tblGet tbl r.signal_number).isSome = true) →
      (recs.filterMap (attempted tbl)).map (fun d => (d.2.1, d.2.2)) =
        recs.map (fun r => (r.signal_number, r.origin_kind)) := by
  intro recs
  induction recs with
  | nil => intro _; simp
  | cons r rest ih =>
    intro hreg
    obtain ⟨cb, hcb⟩ := Option.isSome_iff_exists.mp (hreg r (List.mem_cons_self r rest))
    have hrest := ih (fun x hx => hreg x (List.mem_cons_of_mem r hx))
    simp [attempted, hcb, hrest]

theorem check_signal_hook_state_cases (tbl : Tbl)
    (runCb : Cb → Signum → Bool → Except String Unit) (s : SigState) :
    (check_signal_hook tbl runCb s).state = s ∨
    (check_signal_hook tbl runCb s).state =
      { g_signal_pending := false, g_signal_queue := [] } := by
  unfold check_signal_hook
  by_cases hp : s.g_signal_pending = false
  · simp [hp]
  · by_cases hc : 0 < g_queue_count s <;> simp [hp, hc]

theorem hook_after_simulate (tbl : Tbl)
    (runCb : Cb → Signum → Bool → Except String Unit)
    (recs : List SignalRecord)
    (hlen : recs.length ≤ SIGNAL_QUEUE_MAX) :
    (check_signal_hook tbl runCb (simulate_interrupts initialSigState recs)).dispatches =
      recs.filterMap (attempted tbl) ∧
    (check_signal_hook tbl runCb (simulate_interrupts initialSigState recs)).logs =
      recs.filterMap (errorLog tbl runCb) ∧
    (check_signal_hook tbl runCb (simulate_interrupts initialSigState recs)).state =
      initialSigState := by
  by_cases hne : recs = []
  · subst hne
    have hsim : simulate_interrupts initialSigState [] = initialSigState := rfl
    rw [hsim, check_signal_hook_not_pending tbl runCb initialSigState rfl]
    exact ⟨rfl, rfl, rfl⟩
  · rw [simulate_interrupts_from_empty recs hlen]
    rw [check_signal_hook_drained tbl runCb _ (by simp [hne]) (by simp [hne])]
    exact ⟨rfl, rfl, rfl⟩

/-- C1: starting from a freshly drained (empty) queue, after N ≤ 50
simulated interrupts whose signal numbers all have registered callbacks, one
invocation of `check_signal_hook` performs exactly the per-record registered
invocations (`filterMap (attempted tbl)`), hence exactly N of them, in FIFO
arrival order, each receiving the arguments `(signal_number, origin_kind)`. -/
theorem check_signal_hook_fifo_dispatch (tbl : Tbl)
    (runCb : Cb → Signum → Bool → Except String Unit)
    (recs : List SignalRecord)
    (hlen : recs.length ≤ SIGNAL_QUEUE_MAX)
    (hreg : ∀ r ∈ recs, (tblGet tbl r.signal_number).isSome = true) :
    (check_signal_hook tbl runCb (simulate_interrupts initialSigState recs)).dispatches =
      recs.filterMap (attempted tbl) ∧
    (check_signal_hook tbl runCb (simulate_interrupts initialSigState recs)).dispatches.length
      = recs.length ∧
    (check_signal_hook tbl runCb (simulate_interrupts initialSigState recs)).dispatches.map
        (fun d => (d.2.1, d.2.2)) =
      recs.map (fun r => (r.signal_number, r.origin_kind)) := by
  have hproj := filterMap_attempted_of_registered tbl recs hreg
  obtain ⟨hd, _, _⟩ := hook_after_simulate tbl runCb recs hlen
  rw [hd]
  refine ⟨rfl, ?_, hproj⟩
  have hlens := congrArg List.length hproj
  simpa using hlens

def sampleTbl : Tbl := [(2, 7), (15, 9)]

def c1Recs : List SignalRecord := [⟨2, false⟩, ⟨15, true⟩, ⟨2, false⟩]

def okRun : Cb → Signum → Bool → Except String Unit := fun _ _ _ => Except.ok ()

/-- Witness for C1 at a concrete input: three interrupts for signals 2 and
15, both registered. -/
theorem check_signal_hook_fifo_dispatch_witness :
    (c1Recs.length ≤ SIGNAL_QUEUE_MAX ∧
      ∀ r ∈ c1Recs, (tblGet sampleTbl r.signal_number).isSome = true) ∧
    (check_signal_hook sampleTbl okRun (simulate_interrupts initialSigState c1Recs)).dispatches.map
        (fun d => (d.2.1, d.2.2)) =
      c1Recs.map (fun r => (r.signal_number, r.origin_kind)) :=
  ⟨⟨by decide, by decide⟩,
   (check_signal_hook_fifo_dispatch sampleTbl okRun c1Recs (by decide) (by decide)).2.2⟩

/-- C2: the queue count never leaves [0, 50] — `enqueue_signal` and the
drain both preserve the bound; with the queue full an incoming record is
silently dropped (the state is returned unchanged, no error path exists);
and simulating `capacity + K` interrupts before any drain dispatches
exactly `capacity` callbacks, namely for the earliest 50 arrivals in
order. -/
theorem g_queue_count_bounded :
    (∀ (s : SigState) (sig : Signum) (kind : Bool),
       g_queue_count s ≤ SIGNAL_QUEUE_MAX →
       g_queue_count (enqueue_signal s sig kind) ≤ SIGNAL_QUEUE_MAX) ∧
    (∀ (tbl : Tbl) (runCb : Cb → Signum → Bool → Except String Unit) (s : SigState),
       g_queue_count s ≤ SIGNAL_QUEUE_MAX →
       g_queue_count (check_signal_hook tbl runCb s).state ≤ SIGNAL_QUEUE_MAX) ∧
    (∀ (s : SigState) (sig : Signum) (kind : Bool),
       SIGNAL_QUEUE_MAX ≤ g_queue_count s → enqueue_signal s sig kind = s) ∧
    (∀ (tbl : Tbl) (runCb : Cb → Signum → Bool → Except String Unit)
       (recs : List SignalRecord),
       SIGNAL_QUEUE_MAX ≤ recs.length →
       (∀ r ∈ recs.take SIGNAL_QUEUE_MAX, (tblGet tbl r.signal_number).isSome = true) →
       (check_signal_hook tbl runCb (simulate_interrupts initialSigState recs)).dispatches.length
         = SIGNAL_QUEUE_MAX ∧
       (check_signal_hook tbl runCb (simulate_interrupts initialSigState recs)).dispatches.map
           (fun d => (d.2.1, d.2.2)) =
         (recs.take SIGNAL_QUEUE_MAX).map (fun r => (r.signal_number, r.origin_kind))) := by
  refine ⟨?_, ?_, ?_, ?_⟩
  · intro s sig kind hle
    by_cases h : g_queue_count s < SIGNAL_QUEUE_MAX
    · simp only [enqueue_signal, h, if_true]
      simp only [g_queue_count, List.length_append, List.length_singleton] at h ⊢
      omega
    · simp [enqueue_signal, h, hle]
  · intro tbl runCb s hle
    rcases check_signal_hook_state_cases tbl runCb s with hc | hc
    · rw [hc]; exact hle
    · rw [hc]; simp [g_queue_count]
  · intro s sig kind hge
    have h : ¬ g_queue_count s < SIGNAL_QUEUE_MAX := by omega
    simp [enqueue_signal, h]
  · intro tbl runCb recs hge hreg
    have hne : recs ≠ [] := by
      intro h
      rw [h] at hge
      simp [SIGNAL_QUEUE_MAX] at hge
    have hsim := simulate_interrupts_eq recs initialSigState
    have h0 : g_queue_count initialSigState = 0 := rfl
    rw [h0] at hsim
    have hpend : (!recs.isEmpty && decide (0 < SIGNAL_QUEUE_MAX)) = true := by
      simp [hne, SIGNAL_QUEUE_MAX]
    rw [hsim]
    simp only [initialSigState, Bool.false_or, Nat.sub_zero, List.nil_append, hpend]
    have htne : recs.take SIGNAL_QUEUE_MAX ≠ [] := by
      simp [List.take_eq_nil_iff, hne, SIGNAL_QUEUE_MAX]
    rw [check_signal_hook_drained tbl runCb _ rfl htne]
    have hproj := filterMap_attempted_of_registered tbl (recs.take SIGNAL_QUEUE_MAX) hreg
    refine ⟨?_, hproj⟩
    have hlens := congrArg List.length hproj
    simp only [List.length_map] at hlens
    rw [hlens, List.length_take]
    omega

def c2Full : SigState :=
  { g_signal_pending := true, g_signal_queue := List.replicate 50 ⟨2, false⟩ }

def c2Recs : List SignalRecord := List.replicate 55 ⟨2, false⟩

/-- Witness for C2 at concrete inputs: one enqueue into the empty queue, a
drain of the empty state, an enqueue into a full queue, and 55 interrupts
before a drain yielding exactly 50 dispatches. -/
theorem g_queue_count_bounded_witness :
    g_queue_count (enqueue_signal initialSigState 2 false) ≤ SIGNAL_QUEUE_MAX ∧
    g_queue_count (check_signal_hook sampleTbl okRun initialSigState).state ≤ SIGNAL_QUEUE_MAX ∧
    enqueue_signal c2Full 9 true = c2Full ∧
    (check_signal_hook sampleTbl okRun (simulate_interrupts initialSigState c2Recs)).dispatches.length
      = SIGNAL_QUEUE_MAX :=
  ⟨g_queue_count_bounded.1 initialSigState 2 false (by decide),
   g_queue_count_bounded.2.1 sampleTbl okRun initialSigState (by decide),
   g_queue_count_bounded.2.2.1 c2Full 9 true (by decide),
   (g_queue_count_bounded.2.2.2 sampleTbl okRun c2Recs (by decide) (by decide)).1⟩

/-- The pending-flag consistency invariant: `g_signal_pending` is nonzero
exactly when the queue is non-empty. -/
def SigInv (s : SigState) : Prop :=
  s.g_signal_pending = !s.g_signal_queue.isEmpty

/-- C3: `g_signal_pending` is nonzero iff the queue is non-empty, at every
consistent snapshot: the invariant holds in the initial state, is preserved
by `enqueue_signal` and by a `check_signal_hook` drain (the registration
functions do not touch either global at all), the flag is set immediately
after an enqueue into a previously empty queue, and after any drain the
flag is zero iff `g_queue_count` is zero. -/
theorem pending_flag_iff_nonempty :
    SigInv initialSigState ∧
    (∀ (s : SigState) (sig : Signum) (kind : Bool),
       SigInv s → SigInv (enqueue_signal s sig kind)) ∧
    (∀ (tbl : Tbl) (runCb : Cb → Signum → Bool → Except String Unit) (s : SigState),
       SigInv s → SigInv (check_signal_hook tbl runCb s).state) ∧
    (∀ (s : SigState) (sig : Signum) (kind : Bool),
       s.g_signal_queue = [] → (enqueue_signal s sig kind).g_signal_pending = true) ∧
    (∀ (tbl : Tbl) (runCb : Cb → Signum → Bool → Except String Unit) (s : SigState),
       SigInv s →
       ((check_signal_hook tbl runCb s).state.g_signal_pending = false ↔
         g_queue_count (check_signal_hook tbl runCb s).state = 0)) := by
  have hookInv : ∀ (tbl : Tbl) (runCb : Cb → Signum → Bool → Except String Unit)
      (s : SigState), SigInv s → SigInv (check_signal_hook tbl runCb s).state := by
    intro tbl runCb s hs
    by_cases hp : s.g_signal_pending = false
    · rw [check_signal_hook_not_pending tbl runCb s hp]
      exact hs
    · have hp' : s.g_signal_pending = true := by
        cases h : s.g_signal_pending
        · exact absurd h hp
        · rfl
      have hq : s.g_signal_queue ≠ [] := by
        intro h
        rw [SigInv, hp', h] at hs
        simp at hs
      rw [check_signal_hook_drained tbl runCb s hp' hq]
      rfl
  refine ⟨rfl, ?_, hookInv, ?_, ?_⟩
  · intro s sig kind hs
    by_cases h : g_queue_count s < SIGNAL_QUEUE_MAX
    · simp [SigInv, enqueue_signal, h]
    · simpa [enqueue_signal, h] using hs
  · intro s sig kind hq
    have h : g_queue_count s < SIGNAL_QUEUE_MAX := by
      simp [g_queue_count, hq, SIGNAL_QUEUE_MAX]
    simp [enqueue_signal, h]
  · intro tbl runCb s hs
    have := hookInv tbl runCb s hs
    rw [SigInv] at this
    rw [this]
    cases hq : (check_signal_hook tbl runCb s).state.g_signal_queue with
    | nil => simp [g_queue_count, hq]
    | cons a l => simp [g_queue_count, hq]

/-- Witness for C3 at concrete inputs: the invariant after one enqueue and
after one drain, the flag set by an enqueue into the empty queue, and the
flag-iff-count equivalence after a drain of a one-record queue. -/
theorem pending_flag_iff_nonempty_witness :
    SigInv (enqueue_signal initialSigState 2 false) ∧
    SigInv (check_signal_hook sampleTbl okRun (enqueue_signal initialSigState 2 false)).state ∧
    (enqueue_signal initialSigState 15 true).g_signal_pending = true ∧
    ((check_signal_hook sampleTbl okRun (enqueue_signal initialSigState 2 false)).state.g_signal_pending
        = false ↔
      g_queue_count (check_signal_hook sampleTbl okRun (enqueue_signal initialSigState 2 false)).state
        = 0) :=
  ⟨pending_flag_iff_nonempty.2.1 initialSigState 2 false rfl,
   pending_flag_iff_nonempty.2.2.1 sampleTbl okRun (enqueue_signal initialSigState 2 false)
     (pending_flag_iff_nonempty.2.1 initialSigState 2 false rfl),
   pending_flag_iff_nonempty.2.2.2.1 initialSigState 15 true rfl,
   pending_flag_iff_nonempty.2.2.2.2 sampleTbl okRun (enqueue_signal initialSigState 2 false)
     (pending_flag_iff_nonempty.2.1 initialSigState 2 false rfl)⟩

/-- C4: atomicity of the drain's snapshot-and-clear with respect to
Interrupt Capture. In the source the snapshot and the reset of
`g_queue_count`/`g_signal_pending` happen with every signal blocked
(`sigprocmask(SIG_BLOCK, ...)`) resp. inside the critical section, so an
interleaving of `enqueue_signal` calls with one drain is a sequence of
whole `enqueue_signal` steps before the swap (`pre`) and after it (`post` —
including any that land while the dispatch loop of the same drain is still
running, since the loop no longer touches the queue). For every such
interleaving: the drain dispatches exactly the registered pre-records, each
once (no loss between snapshot and reset, no double dispatch); every
accepted post-record survives in the queue afterwards; and the next drain
dispatches exactly those, so a concurrently arriving record lands in the
next generation. -/
theorem drain_swap_atomic (tbl : Tbl)
    (runCb : Cb → Signum → Bool → Except String Unit)
    (pre post : List SignalRecord)
    (hpre : pre.length ≤ SIGNAL_QUEUE_MAX)
    (hpost : post.length ≤ SIGNAL_QUEUE_MAX) :
    (check_signal_hook tbl runCb (simulate_interrupts initialSigState pre)).dispatches =
      pre.filterMap (attempted tbl) ∧
    (simulate_interrupts
        (check_signal_hook tbl runCb (simulate_interrupts initialSigState pre)).state
        post).g_signal_queue = post ∧
    (check_signal_hook tbl runCb
        (simulate_interrupts
          (check_signal_hook tbl runCb (simulate_interrupts initialSigState pre)).state
          post)).dispatches =
      post.filterMap (attempted tbl) := by
  have hstate : (check_signal_hook tbl runCb (simulate_interrupts initialSigState pre)).state
      = initialSigState := by
    by_cases hne : pre = []
    · subst hne
      rw [show simulate_interrupts initialSigState [] = initialSigState from rfl,
        check_signal_hook_not_pending tbl runCb initialSigState rfl]
    · rw [simulate_interrupts_from_empty pre hpre,
        check_signal_hook_drained tbl runCb _ (by simp [hne]) (by simp [hne])]
      rfl
  have hdisp : (check_signal_hook tbl runCb (simulate_interrupts initialSigState pre)).dispatches
      = pre.filterMap (attempted tbl) := by
    by_cases hne : pre = []
    · subst hne
      rw [show simulate_interrupts initialSigState [] = initialSigState from rfl,
        check_signal_hook_not_pending tbl runCb initialSigState rfl]
      rfl
    · rw [simulate_interrupts_from_empty pre hpre,
        check_signal_hook_drained tbl runCb _ (by simp [hne]) (by simp [hne])]
  refine ⟨hdisp, ?_, ?_⟩
  · rw [hstate, simulate_interrupts_from_empty post hpost]
  · rw [hstate]
    by_cases hne : post = []
    · subst hne
      rw [show simulate_interrupts initialSigState [] = initialSigState from rfl,
        check_signal_hook_not_pending tbl runCb initialSigState rfl]
      rfl
    · rw [simulate_interrupts_from_empty post hpost,
        check_signal_hook_drained tbl runCb _ (by simp [hne]) (by simp [hne])]

def c4Pre : List SignalRecord := [⟨2, false⟩, ⟨15, false⟩]

def c4Post : List SignalRecord := [⟨15, true⟩]

/-- Witness for C4 at a concrete interleaving: two interrupts before the
swap, one after it. -/
theorem drain_swap_atomic_witness :
    (c4Pre.length ≤ SIGNAL_QUEUE_MAX ∧ c4Post.length ≤ SIGNAL_QUEUE_MAX) ∧
    (simulate_interrupts
        (check_signal_hook sampleTbl okRun (simulate_interrupts initialSigState c4Pre)).state
        c4Post).g_signal_queue = c4Post :=
  ⟨⟨by decide, by decide⟩,
   (drain_swap_atomic sampleTbl okRun c4Pre c4Post (by decide) (by decide)).2.1⟩

/-- C5: callback failures are isolated. For any drain pass over N ≤ 50
queued records whose signal numbers all have registered callbacks, whatever
errors the callbacks raise under `lua_pcall`: every record is still
dispatched with its `(signal_number, origin_kind)` arguments (failures do
not abort the loop), exactly the failing invocations produce a stderr line
`[os.signal] Error in handler: <err>` in order, the hook returns normally
(it is a total function with no error outcome), and afterwards the pending
flag is zero and the queue empty. -/
theorem callback_error_isolation (tbl : Tbl)
    (runCb : Cb → Signum → Bool → Except String Unit)
    (recs : List SignalRecord)
    (hlen : recs.length ≤ SIGNAL_QUEUE_MAX)
    (hreg : ∀ r ∈ recs, (tblGet tbl r.signal_number).isSome = true) :
    (check_signal_hook tbl runCb (simulate_interrupts initialSigState recs)).dispatches.map
        (fun d => (d.2.1, d.2.2)) =
      recs.map (fun r => (r.signal_number, r.origin_kind)) ∧
    (check_signal_hook tbl runCb (simulate_interrupts initialSigState recs)).logs =
      recs.filterMap (errorLog tbl runCb) ∧
    (check_signal_hook tbl runCb (simulate_interrupts initialSigState recs)).state.g_signal_pending
      = false ∧
    (check_signal_hook tbl runCb (simulate_interrupts initialSigState recs)).state.g_signal_queue
      = [] := by
  obtain ⟨hd, hl, hs⟩ := hook_after_simulate tbl runCb recs hlen
  refine ⟨?_, hl, ?_, ?_⟩
  · rw [hd]
    exact filterMap_attempted_of_registered tbl recs hreg
  · rw [hs]; rfl
  · rw [hs]; rfl

def c5Tbl : Tbl := [(15, 9)]

def c5Run : Cb → Signum → Bool → Except String Unit :=
  fun _ _ _ => Except.error "boom"

def c5Recs : List SignalRecord := [⟨15, false⟩, ⟨15, false⟩]

/-- Witness for C5 at the spec's scenario: the handler for signal 15 always
raises; two interrupts for 15 before one drain give two attempted
invocations, two logged failures, and a clear pending flag. -/
theorem callback_error_isolation_witness :
    (c5Recs.length ≤ SIGNAL_QUEUE_MAX ∧
      ∀ r ∈ c5Recs, (tblGet c5Tbl r.signal_number).isSome = true) ∧
    (check_signal_hook c5Tbl c5Run (simulate_interrupts initialSigState c5Recs)).logs =
      c5Recs.filterMap (errorLog c5Tbl c5Run) ∧
    (check_signal_hook c5Tbl c5Run (simulate_interrupts initialSigState c5Recs)).state.g_signal_pending
      = false :=
  ⟨⟨by decide, by decide⟩,
   (callback_error_isolation c5Tbl c5Run c5Recs (by decide) (by decide)).2.1,
   (callback_error_isolation c5Tbl c5Run c5Recs (by decide) (by decide)).2.2.1⟩

theorem tblGet_tblRemove (k : Signum) : ∀ t : Tbl,
    tblGet (tblRemove t k) k = none := by
  intro t
  induction t with
  | nil => rfl
  | cons p rest ih =>
    obtain ⟨k', v⟩ := p
    by_cases h : k' = k
    · rw [tblRemove, if_pos h]
      exact ih
    · rw [tblRemove, if_neg h, tblGet, if_neg h]
      exact ih

theorem tblGet_tblSet_none (t : Tbl) (k : Signum) :
    tblGet (tblSet t k none) k = none :=
  tblGet_tblRemove k t

theorem tblGet_append_of_none (k : Signum) : ∀ t1 t2 : Tbl,
    tblGet t1 k = none → tblGet (t1 ++ t2) k = tblGet t2 k := by
  intro t1
  induction t1 with
  | nil => intro t2 _; rfl
  | cons p rest ih =>
    intro t2 h
    by_cases hp : p.1 = k
    · rw [tblGet, if_pos hp] at h
      exact absurd h (by simp)
    · rw [tblGet, if_neg hp] at h
      rw [List.cons_append, tblGet, if_neg hp]
      exact ih t2 h

theorem tblGet_tblSet_some (t : Tbl) (k : Signum) (cb : Cb) :
    tblGet (tblSet t k (some cb)) k = some cb := by
  rw [tblSet, tblGet_append_of_none k _ _ (tblGet_tblRemove k t)]
  simp [tblGet]

theorem check_signal_hook_dispatches_cases (tbl : Tbl)
    (runCb : Cb → Signum → Bool → Except String Unit) (s : SigState) :
    (check_signal_hook tbl runCb s).dispatches =
      s.g_signal_queue.filterMap (attempted tbl) ∨
    (check_signal_hook tbl runCb s).dispatches = [] := by
  unfold check_signal_hook
  by_cases hp : s.g_signal_pending = false
  · right; simp [hp]
  · by_cases hc : 0 < g_queue_count s
    · left; simp [hp, hc, dispatch_loop_eq]
    · right; simp [hp, hc]

/-- C6: for a signal number with a previously registered callback,
`handle(signum, IGNORE)` (with the OS call succeeding) returns normally,
removes the callback from the handlers table, leaves the hook state exactly
as it was (it is not newly armed), and afterwards any sequence of simulated
interrupts for `signum` produces zero callback dispatches — the drain loop
skips records whose signal number has no table entry. -/
theorem handle_ignore_removes (osOk : Signum → Bool) (st : LuaState) (signum : Signum)
    (cb : Cb) (runCb : Cb → Signum → Bool → Except String Unit)
    (recs : List SignalRecord)
    (hos : osOk signum = true)
    (_hprev : tblGet (getHandlersTbl st) signum = some cb)
    (hsig : ∀ r ∈ recs, r.signal_number = signum) :
    (eli_os_signal_handle osOk st (LuaValue.integer signum) LuaValue.ignore_sentinel).2 =
      CallResult.ok ∧
    tblGet
      (getHandlersTbl
        (eli_os_signal_handle osOk st (LuaValue.integer signum) LuaValue.ignore_sentinel).1)
      signum = none ∧
    (eli_os_signal_handle osOk st (LuaValue.integer signum) LuaValue.ignore_sentinel).1.hookArmed
      = st.hookArmed ∧
    (check_signal_hook
        (getHandlersTbl
          (eli_os_signal_handle osOk st (LuaValue.integer signum) LuaValue.ignore_sentinel).1)
        runCb (simulate_interrupts initialSigState recs)).dispatches = [] := by
  have htbl : getHandlersTbl
      (eli_os_signal_handle osOk st (LuaValue.integer signum) LuaValue.ignore_sentinel).1 =
      tblSet (getHandlersTbl st) signum none := by
    simp [eli_os_signal_handle, isIgnoreSentinel, hos, getHandlersTbl, setHandlersTbl]
  have hres : (eli_os_signal_handle osOk st (LuaValue.integer signum) LuaValue.ignore_sentinel).2 =
      CallResult.ok := by
    simp [eli_os_signal_handle, isIgnoreSentinel, hos]
  have hhook : (eli_os_signal_handle osOk st (LuaValue.integer signum)
      LuaValue.ignore_sentinel).1.hookArmed = st.hookArmed := by
    simp [eli_os_signal_handle, isIgnoreSentinel, hos, setHandlersTbl]
  refine ⟨hres, ?_, hhook, ?_⟩
  · rw [htbl]
    exact tblGet_tblSet_none (getHandlersTbl st) signum
  · rw [htbl]
    rcases check_signal_hook_dispatches_cases (tblSet (getHandlersTbl st) signum none) runCb
        (simulate_interrupts initialSigState recs) with hc | hc
    · rw [hc]
      rw [List.filterMap_eq_nil_iff]
      intro r hr
      have hmem : r ∈ recs := by
        have hq : (simulate_interrupts initialSigState recs).g_signal_queue =
            recs.take (SIGNAL_QUEUE_MAX - g_queue_count initialSigState) := by
          rw [simulate_interrupts_eq]
          simp [initialSigState]
        rw [hq] at hr
        exact List.mem_of_mem_take hr
      rw [attempted, hsig r hmem, tblGet_tblSet_none]
      rfl
    · exact hc

def c6St : LuaState :=
  { heap := fun i => if i = 0 then [(2, 7)] else []
    nextRef := 1
    handlersRef := 0
    hookArmed := true
    disp := fun _ => SigDisp.handled }

/-- Witness for C6 at a concrete input: callback 7 registered for signal 2,
then ignored; two later interrupts for 2 dispatch nothing. -/
theorem handle_ignore_removes_witness :
    ((fun _ : Signum => true) 2 = true ∧
      tblGet (getHandlersTbl c6St) 2 = some 7 ∧
      ∀ r ∈ [(⟨2, false⟩ : SignalRecord), ⟨2, false⟩], r.signal_number = 2) ∧
    tblGet
      (getHandlersTbl
        (eli_os_signal_handle (fun _ => true) c6St (LuaValue.integer 2)
          LuaValue.ignore_sentinel).1) 2 = none ∧
    (check_signal_hook
        (getHandlersTbl
          (eli_os_signal_handle (fun _ => true) c6St (LuaValue.integer 2)
            LuaValue.ignore_sentinel).1)
        okRun
        (simulate_interrupts initialSigState [⟨2, false⟩, ⟨2, false⟩])).dispatches = [] :=
  ⟨⟨rfl, by decide, by decide⟩,
   (handle_ignore_removes (fun _ => true) c6St 2 7 okRun [⟨2, false⟩, ⟨2, false⟩]
      rfl (by decide) (by decide)).2.1,
   (handle_ignore_removes (fun _ => true) c6St 2 7 okRun [⟨2, false⟩, ⟨2, false⟩]
      rfl (by decide) (by decide)).2.2.2⟩

def regSt15 : LuaState :=
  { heap := fun i => if i = 0 then [(15, 7)] else []
    nextRef := 1
    handlersRef := 0
    hookArmed := false
    disp := fun _ => SigDisp.dfl }

/-- Counterexample to C7 as stated: with callback 7 registered for signal
15 and the OS disposition call failing, `handle(15, IGNORE)` does return a
recoverable failure, but the registration is NOT left unchanged — the
callback was already removed from the handlers table (src/los_signal.c
removes the entry at lines 257-261 before calling `sigaction` at line
286). -/
theorem handle_ignore_failure_drops_registration :
    tblGet (getHandlersTbl regSt15) 15 = some 7 ∧
    (eli_os_signal_handle (fun _ => false) regSt15 (LuaValue.integer 15)
        LuaValue.ignore_sentinel).2 = CallResult.failure "failed to set signal to ignore" ∧
    tblGet
        (getHandlersTbl
          (eli_os_signal_handle (fun _ => false) regSt15 (LuaValue.integer 15)
            LuaValue.ignore_sentinel).1) 15 = none ∧
    tblGet
        (getHandlersTbl
          (eli_os_signal_handle (fun _ => false) regSt15 (LuaValue.integer 15)
            LuaValue.ignore_sentinel).1) 15 ≠
      tblGet (getHandlersTbl regSt15) 15 := by
  refine ⟨by decide, by decide, by decide, by decide⟩

/-- C7 (amended): when the underlying OS signal-disposition call fails, the
operation returns a recoverable failure naming the failing operation; for
`reset` and for `handle(signum, callback)` the whole state — in particular
the handlers table — is left unchanged, but a failing
`handle(signum, IGNORE)` has already removed any previously registered
callback for `signum` before the OS call, so there the handlers table is
left with the entry removed rather than unchanged. -/
theorem os_disposition_failure_state (osOk : Signum → Bool) (st : LuaState)
    (signum : Signum) (cb : Cb) (hos : osOk signum = false) :
    ((eli_os_signal_reset osOk st (LuaValue.integer signum)).2 =
        CallResult.failure "failed to reset signal handler" ∧
      (eli_os_signal_reset osOk st (LuaValue.integer signum)).1 = st) ∧
    ((eli_os_signal_handle osOk st (LuaValue.integer signum) (LuaValue.function cb)).2 =
        CallResult.failure "failed to set signal handler" ∧
      (eli_os_signal_handle osOk st (LuaValue.integer signum) (LuaValue.function cb)).1 = st) ∧
    ((eli_os_signal_handle osOk st (LuaValue.integer signum) LuaValue.ignore_sentinel).2 =
        CallResult.failure "failed to set signal to ignore" ∧
      getHandlersTbl
          (eli_os_signal_handle osOk st (LuaValue.integer signum) LuaValue.ignore_sentinel).1 =
        tblRemove (getHandlersTbl st) signum) := by
  refine ⟨⟨?_, ?_⟩, ⟨?_, ?_⟩, ⟨?_, ?_⟩⟩
  · simp [eli_os_signal_reset, hos]
  · simp [eli_os_signal_reset, hos]
  · simp [eli_os_signal_handle, isIgnoreSentinel, isFunctionVal, hos]
  · simp [eli_os_signal_handle, isIgnoreSentinel, isFunctionVal, hos]
  · simp [eli_os_signal_handle, isIgnoreSentinel, isFunctionVal, hos]
  · simp [eli_os_signal_handle, isIgnoreSentinel, isFunctionVal, hos, getHandlersTbl,
      setHandlersTbl, tblSet]

/-- Witness for the amended C7 at a concrete input: every OS call fails;
reset and callback-handle leave the state untouched, ignore-handle leaves
the table with the entry for 15 removed. -/
theorem os_disposition_failure_state_witness :
    ((fun _ : Signum => false) 15 = false) ∧
    (eli_os_signal_reset (fun _ => false) regSt15 (LuaValue.integer 15)).1 = regSt15 ∧
    (eli_os_signal_handle (fun _ => false) regSt15 (LuaValue.integer 15) (LuaValue.function 8)).1
      = regSt15 ∧
    getHandlersTbl
        (eli_os_signal_handle (fun _ => false) regSt15 (LuaValue.integer 15)
          LuaValue.ignore_sentinel).1 =
      tblRemove (getHandlersTbl regSt15) 15 :=
  ⟨rfl,
   (os_disposition_failure_state (fun _ => false) regSt15 15 8 rfl).1.2,
   (os_disposition_failure_state (fun _ => false) regSt15 15 8 rfl).2.1.2,
   (os_disposition_failure_state (fun _ => false) regSt15 15 8 rfl).2.2.2⟩

theorem handle_function_success (osOk : Signum → Bool) (st : LuaState) (signum : Signum)
    (cb : Cb) (hos : osOk signum = true) :
    getHandlersTbl
        (eli_os_signal_handle osOk st (LuaValue.integer signum) (LuaValue.function cb)).1 =
      tblSet (getHandlersTbl st) signum (some cb) ∧
    (eli_os_signal_handle osOk st (LuaValue.integer signum) (LuaValue.function cb)).1.handlersRef
      = st.handlersRef ∧
    (eli_os_signal_handle osOk st (LuaValue.integer signum) (LuaValue.function cb)).1.nextRef
      = st.nextRef ∧
    (eli_os_signal_handle osOk st (LuaValue.integer signum) (LuaValue.function cb)).2
      = CallResult.ok := by
  cases hb : st.hookArmed <;>
    simp [eli_os_signal_handle, isIgnoreSentinel, isFunctionVal, hos, getHandlersTbl,
      setHandlersTbl, hb]

theorem reset_success (osOk : Signum → Bool) (st : LuaState) (signum : Signum)
    (hos : osOk signum = true) :
    getHandlersTbl (eli_os_signal_reset osOk st (LuaValue.integer signum)).1 =
      tblSet (getHandlersTbl st) signum none ∧
    (eli_os_signal_reset osOk st (LuaValue.integer signum)).1.handlersRef = st.handlersRef ∧
    (eli_os_signal_reset osOk st (LuaValue.integer signum)).1.nextRef = st.nextRef ∧
    (eli_os_signal_reset osOk st (LuaValue.integer signum)).2 = CallResult.ok := by
  simp [eli_os_signal_reset, hos, getHandlersTbl, setHandlersTbl]

theorem handlers_snapshot (st : LuaState) (href : st.handlersRef < st.nextRef) :
    (eli_os_signal_handlers st).2 ≠ st.handlersRef ∧
    tableContents (eli_os_signal_handlers st).1 (eli_os_signal_handlers st).2
      = getHandlersTbl st ∧
    getHandlersTbl (eli_os_signal_handlers st).1 = getHandlersTbl st ∧
    (eli_os_signal_handlers st).1.handlersRef = st.handlersRef ∧
    (eli_os_signal_handlers st).1.nextRef = st.nextRef + 1 := by
  have hne : st.handlersRef ≠ st.nextRef := Nat.ne_of_lt href
  refine ⟨fun h => hne h.symm, ?_, ?_, rfl, rfl⟩
  · simp [eli_os_signal_handlers, tableContents, getHandlersTbl]
  · simp [eli_os_signal_handlers, getHandlersTbl, hne]

theorem rawsetTable_other (st : LuaState) (t : Nat) (k : Signum) (v : Option Cb)
    (h : t ≠ st.handlersRef) :
    getHandlersTbl (rawsetTable st t k v) = getHandlersTbl st ∧
    (rawsetTable st t k v).handlersRef = st.handlersRef ∧
    (rawsetTable st t k v).nextRef = st.nextRef := by
  refine ⟨?_, rfl, rfl⟩
  have h' : st.handlersRef ≠ t := Ne.symm h
  simp [rawsetTable, getHandlersTbl, h']

/-- C8: registration round-trips through `handlers()`, and `handlers()`
returns a fresh snapshot. After a successful `handle(signum, cb)` the
mapping `handlers()` returns contains `signum → cb`; after a subsequent
successful `reset(signum)` it no longer does. The table `handlers()`
returns is a different table from the live handlers table, and a `rawset`
mutation applied to the returned table changes neither the live handlers
table nor the contents a later `handlers()` call returns. -/
theorem handlers_roundtrip_fresh_snapshot (osOk : Signum → Bool) (st : LuaState)
    (signum : Signum) (cb : Cb) (k : Signum) (v : Option Cb)
    (href : st.handlersRef < st.nextRef) (hos : osOk signum = true) :
    tblGet
        (tableContents
          (eli_os_signal_handlers
            (eli_os_signal_handle osOk st (LuaValue.integer signum) (LuaValue.function cb)).1).1
          (eli_os_signal_handlers
            (eli_os_signal_handle osOk st (LuaValue.integer signum) (LuaValue.function cb)).1).2)
        signum = some cb ∧
    tblGet
        (tableContents
          (eli_os_signal_handlers
            (eli_os_signal_reset osOk
              (eli_os_signal_handle osOk st (LuaValue.integer signum) (LuaValue.function cb)).1
              (LuaValue.integer signum)).1).1
          (eli_os_signal_handlers
            (eli_os_signal_reset osOk
              (eli_os_signal_handle osOk st (LuaValue.integer signum) (LuaValue.function cb)).1
              (LuaValue.integer signum)).1).2)
        signum = none ∧
    (eli_os_signal_handlers st).2 ≠ st.handlersRef ∧
    getHandlersTbl
        (rawsetTable (eli_os_signal_handlers st).1 (eli_os_signal_handlers st).2 k v) =
      getHandlersTbl st ∧
    tableContents
        (eli_os_signal_handlers
          (rawsetTable (eli_os_signal_handlers st).1 (eli_os_signal_handlers st).2 k v)).1
        (eli_os_signal_handlers
          (rawsetTable (eli_os_signal_handlers st).1 (eli_os_signal_handlers st).2 k v)).2 =
      tableContents (eli_os_signal_handlers st).1 (eli_os_signal_handlers st).2 := by
  obtain ⟨h1tbl, h1ref, h1next, _⟩ := handle_function_success osOk st signum cb hos
  have href1 : (eli_os_signal_handle osOk st (LuaValue.integer signum)
      (LuaValue.function cb)).1.handlersRef <
      (eli_os_signal_handle osOk st (LuaValue.integer signum)
        (LuaValue.function cb)).1.nextRef := by
    rw [h1ref, h1next]; exact href
  obtain ⟨h2tbl, h2ref, h2next, _⟩ := reset_success osOk
    (eli_os_signal_handle osOk st (LuaValue.integer signum) (LuaValue.function cb)).1 signum hos
  have href2 : (eli_os_signal_reset osOk
      (eli_os_signal_handle osOk st (LuaValue.integer signum) (LuaValue.function cb)).1
      (LuaValue.integer signum)).1.handlersRef <
      (eli_os_signal_reset osOk
        (eli_os_signal_handle osOk st (LuaValue.integer signum) (LuaValue.function cb)).1
        (LuaValue.integer signum)).1.nextRef := by
    rw [h2ref, h2next]; exact href1
  obtain ⟨hs0ne, hs0cont, hs0live, hs0ref, hs0next⟩ := handlers_snapshot st href
  have hmutne : (eli_os_signal_handlers st).2 ≠ (eli_os_signal_handlers st).1.handlersRef := by
    rw [hs0ref]; exact hs0ne
  obtain ⟨hmutlive, hmutref, hmutnext⟩ := rawsetTable_other (eli_os_signal_handlers st).1
    (eli_os_signal_handlers st).2 k v hmutne
  have hrefmut : (rawsetTable (eli_os_signal_handlers st).1 (eli_os_signal_handlers st).2
      k v).handlersRef <
      (rawsetTable (eli_os_signal_handlers st).1 (eli_os_signal_handlers st).2 k v).nextRef := by
    rw [hmutref, hmutnext, hs0ref, hs0next]
    omega
  refine ⟨?_, ?_, hs0ne, ?_, ?_⟩
  · rw [(handlers_snapshot _ href1).2.1, h1tbl]
    exact tblGet_tblSet_some (getHandlersTbl st) signum cb
  · rw [(handlers_snapshot _ href2).2.1, h2tbl]
    exact tblGet_tblSet_none _ signum
  · rw [hmutlive, hs0live]
  · rw [(handlers_snapshot _ hrefmut).2.1, hmutlive, hs0live, hs0cont]

/-- Witness for C8 at a concrete input: register callback 7 for signal 2 in
the freshly opened module state, then snapshot, reset, and mutate the
snapshot with `rawset(2, 9)`. -/
theorem handlers_roundtrip_fresh_snapshot_witness :
    (initialLuaState.handlersRef < initialLuaState.nextRef ∧
      (fun _ : Signum => true) 2 = true) ∧
    tblGet
        (tableContents
          (eli_os_signal_handlers
            (eli_os_signal_handle (fun _ => true) initialLuaState (LuaValue.integer 2)
              (LuaValue.function 7)).1).1
          (eli_os_signal_handlers
            (eli_os_signal_handle (fun _ => true) initialLuaState (LuaValue.integer 2)
              (LuaValue.function 7)).1).2) 2 = some 7 ∧
    getHandlersTbl
        (rawsetTable (eli_os_signal_handlers initialLuaState).1
          (eli_os_signal_handlers initialLuaState).2 2 (some 9)) =
      getHandlersTbl initialLuaState :=
  ⟨⟨by decide, rfl⟩,
   (handlers_roundtrip_fresh_snapshot (fun _ => true) initialLuaState 2 7 2 (some 9)
      (by decide) rfl).1,
   (handlers_roundtrip_fresh_snapshot (fun _ => true) initialLuaState 2 7 2 (some 9)
      (by decide) rfl).2.2.2.1⟩

/-- C9: `reset` is idempotent. With the OS call succeeding for `signum`,
calling `reset(signum)` twice in a row returns normally both times, and
afterwards no callback is registered for `signum`. -/
theorem reset_idempotent (osOk : Signum → Bool) (st : LuaState) (signum : Signum)
    (hos : osOk signum = true) :
    (eli_os_signal_reset osOk st (LuaValue.integer signum)).2 = CallResult.ok ∧
    (eli_os_signal_reset osOk (eli_os_signal_reset osOk st (LuaValue.integer signum)).1
        (LuaValue.integer signum)).2 = CallResult.ok ∧
    tblGet
        (getHandlersTbl
          (eli_os_signal_reset osOk (eli_os_signal_reset osOk st (LuaValue.integer signum)).1
            (LuaValue.integer signum)).1) signum = none := by
  obtain ⟨h1tbl, h1ref, h1next, h1ok⟩ := reset_success osOk st signum hos
  obtain ⟨h2tbl, h2ref, h2next, h2ok⟩ := reset_success osOk
    (eli_os_signal_reset osOk st (LuaValue.integer signum)).1 signum hos
  refine ⟨h1ok, h2ok, ?_⟩
  rw [h2tbl]
  exact tblGet_tblSet_none _ signum

/-- Witness for C9 at a concrete input: double reset of signal 15 starting
from a state in which callback 7 is registered for it. -/
theorem reset_idempotent_witness :
    ((fun _ : Signum => true) 15 = true) ∧
    (eli_os_signal_reset (fun _ => true) regSt15 (LuaValue.integer 15)).2 = CallResult.ok ∧
    (eli_os_signal_reset (fun _ => true)
        (eli_os_signal_reset (fun _ => true) regSt15 (LuaValue.integer 15)).1
        (LuaValue.integer 15)).2 = CallResult.ok ∧
    tblGet
        (getHandlersTbl
          (eli_os_signal_reset (fun _ => true)
            (eli_os_signal_reset (fun _ => true) regSt15 (LuaValue.integer 15)).1
            (LuaValue.integer 15)).1) 15 = none :=
  ⟨rfl, reset_idempotent (fun _ => true) regSt15 15 rfl⟩

/-- C10: `handle(nil, IGNORE)` is a silent no-op: the early-return at
src/los_signal.c:230-232 fires before `luaL_checkinteger`, so the call
returns normally with the whole state — handlers table, hook, OS
dispositions — unchanged, whereas a nil signal number with a callback
argument raises the invalid-argument error. -/
theorem handle_nil_ignore_noop (osOk : Signum → Bool) (st : LuaState) (cb : Cb) :
    eli_os_signal_handle osOk st LuaValue.nil LuaValue.ignore_sentinel =
      (st, CallResult.ok) ∧
    eli_os_signal_handle osOk st LuaValue.nil (LuaValue.function cb) =
      (st, CallResult.raised "bad argument #1 (number expected)") := by
  constructor
  · simp [eli_os_signal_handle, isIgnoreSentinel]
  · simp [eli_os_signal_handle, isIgnoreSentinel, isFunctionVal]
